import Mathlib

/-!
Verification of the bibdl bibliography downloader (src/bibdl/bibdl.py).

This file gives a shallow embedding of the core of the program: the
`Status` consistency tracker, the URL classification helpers
(`is_blacklisted`, `is_book`, `strip_url`), the resolution engine
(`BibDL.pdf_url`, modelled as `pdf_url` over an explicit `Engine` state and
explicit provider responses), and the batch loop (`BibDL.single` /
`BibDL.some`, modelled as `runSingle` / `runBatch` over explicit oracle
inputs for file-system preconditions, provider responses and the random
delay samples).

Conventions of the embedding:
  * Python strings are Lean `String`s; character-level operations
    (`lower`, `strip`, regex character classes) are modelled at ASCII
    level, which covers all inputs used in the theorems below.
  * `re.findall('[\d\w]+', s)` joined back together equals filtering `s`
    by the character class `[0-9a-zA-Z_]` (Python 2 `\w` without
    `re.UNICODE` is ASCII letters, digits and underscore).
  * Randomness (the `normalvariate` delay samples) is an oracle: a list of
    realized samples per batch step.  Network and file-system effects are
    oracle inputs as well (provider responses, precondition booleans).
  * Printing is not modelled; the observable part of `Status` is its
    `verbose` flag, its two message dictionaries and the warning text a
    call would print inline.
-/

namespace Bibdl

/-- Timeout after each query (module constant `TIMEOUT = 5.0`). -/
def TIMEOUT : ℚ := 5

/-- Minimum delay floor (module constant `MIN_TIMEOUT = 0.25`, i.e. the
rational one quarter). -/
def MIN_TIMEOUT : ℚ := mkRat 1 4

/-- ASCII whitespace stripped by Python `unicode.strip()`. -/
def pySpace (c : Char) : Bool :=
  c == ' ' || c == '\t' || c == '\n' || c == '\x0d' || c == '\x0b' || c == '\x0c'

/-- The character class `[\d\w]` of `Status.strcollapse` in Python 2:
ASCII digits, ASCII letters and the underscore. -/
def pyWordChar (c : Char) : Bool :=
  c.isAlphanum || c == '_'

/-- `unicode.strip()`: drop leading and trailing whitespace. -/
def trimWs (l : List Char) : List Char :=
  ((l.dropWhile pySpace).reverse.dropWhile pySpace).reverse

/-- The `Status` object of the source, restricted to its observable state:
the `verbose` flag and the two dictionaries `msg_query` and `msg_result`
(association lists, most recent binding first). -/
structure Status where
  verbose : Bool
  msg_query : List (String × String)
  msg_result : List (String × String)
deriving DecidableEq

/-- Dictionary lookup in a message store (`key in d` plus `d[key]`). -/
def lookupField (m : List (String × String)) (key : String) : Option String :=
  match m.find? (fun p => p.1 == key) with
  | some p => some p.2
  | none => none

/-- `Status._similar`: lower-case both strings, strip surrounding
whitespace, drop every character outside `[\d\w]`, compare for equality.
(`u''.join(strcollapse.findall(s))` equals filtering `s` by the class.) -/
def Status.similar (fst snd : String) : Bool :=
  let f := trimWs (fst.data.map Char.toLower)
  let s := trimWs (snd.data.map Char.toLower)
  (f.filter pyWordChar) == (s.filter pyWordChar)

/-- `Status.query`: in verbose mode and for a present value, record the
value in the query dictionary (and print it, not modelled). -/
def Status.query (s : Status) (key : String) (text : Option String) : Status :=
  match text with
  | none => s
  | some t => if s.verbose then { s with msg_query := (key, t) :: s.msg_query } else s

/-- `Status.result`: the consistency check of the source, returning the
updated state together with the inline warning the call prints (if any).
A value for a key already present in `msg_query` is checked against the
query value; a value for a key already present in `msg_result` is checked
against the stored result value (which is not updated); only a fresh key
is stored in `msg_result`. -/
def Status.result (s : Status) (key : String) (text : Option String) :
    Status × Option String :=
  match text with
  | none => (s, none)
  | some t =>
    if s.verbose then
      match lookupField s.msg_query key with
      | some q =>
        if Status.similar q t then (s, none) else (s, some ("differs from query"))
      | none =>
        match lookupField s.msg_result key with
        | some r =>
          if Status.similar r t then (s, none)
          else (s, some ("differs from former result"))
        | none => ({ s with msg_result := (key, t) :: s.msg_result }, none)
    else (s, none)

/-- `Status.warning`: whether the call prints anything (it prints exactly
when a text is given and the status is verbose). -/
def Status.warning (s : Status) (text : Option String) : Bool :=
  match text with
  | none => false
  | some _ => s.verbose

/-- `https?://` at the head of the character list: strip the scheme,
returning the remainder, or `none` when the list does not start with a
scheme. -/
def stripScheme (l : List Char) : Option (List Char) :=
  if ("https://".data).isPrefixOf l then some (l.drop 8)
  else if ("http://".data).isPrefixOf l then some (l.drop 7)
  else none

/-- `[^/]*word` matched at the head of a character list: scan forward over
non-slash characters looking for a position where `word` is a prefix. -/
def hostPartMatch (word : List Char) : List Char → Bool
  | [] => word.isPrefixOf []
  | c :: rest =>
    if word.isPrefixOf (c :: rest) then true
    else if c == '/' then false
    else hostPartMatch word rest

/-- One blacklist regex `https?://[^/]*word` matched at the head of a
character list. -/
def blacklistMatchAt (word : List Char) (l : List Char) : Bool :=
  match stripScheme l with
  | some r => hostPartMatch word r
  | none => false

/-- `re.search` of a blacklist regex: try the match at every position. -/
def reSearch (word : List Char) : List Char → Bool
  | [] => blacklistMatchAt word []
  | c :: rest => blacklistMatchAt word (c :: rest) || reSearch word rest

/-- `URL_BLACKLIST`: the distinguishing words of the three blacklist
regexes `https?://[^/]*springer`, `https?://[^/]*academia`,
`https?://[^/]*semanticscholar`. -/
def URL_BLACKLIST : List String :=
  ["springer", "academia", "semanticscholar"]

/-- `is_blacklisted(url)`: some blacklist regex matches somewhere in the
URL (`rx.search(url) is not None` for some `rx` in `URL_BLACKLIST`). -/
def is_blacklisted (url : String) : Bool :=
  URL_BLACKLIST.any (fun w => reSearch w.data url.data)

/-- Literal pattern match where `.` matches any character, for the regex
`books.google.com` whose dots are unescaped in the source. -/
def wildPrefix : List Char → List Char → Bool
  | [], _ => true
  | _ :: _, [] => false
  | p :: ps, c :: cs => (p == '.' || p == c) && wildPrefix ps cs

/-- `[^/]*books.google.com` matched at the head of a character list. -/
def bookHostScan : List Char → Bool
  | [] => wildPrefix ("books.google.com".data) []
  | c :: rest =>
    if wildPrefix ("books.google.com".data) (c :: rest) then true
    else if c == '/' then false
    else bookHostScan rest

/-- `is_book(url)`: the URL is absent, or
`re.match('https?://[^/]*books.google.com', url)` succeeds (anchored at
the start of the URL). -/
def is_book (url : Option String) : Bool :=
  match url with
  | none => true
  | some u =>
    match stripScheme u.data with
    | some r => bookHostScan r
    | none => false

/-- The scan of `re.search('scholar\.google\.com\/(http.*)', url)`: find
the first position where `scholar.google.com/http` starts, and return
everything from the captured `http` on. -/
def stripUrlScan : List Char → Option (List Char)
  | [] => none
  | c :: rest =>
    if ("scholar.google.com/http".data).isPrefixOf (c :: rest) then
      some ((c :: rest).drop 19)
    else stripUrlScan rest

/-- `strip_url(url)`: unwrap a Google-Scholar-proxied URL, pass every
other URL (and `None`) through unchanged. -/
def strip_url (url : Option String) : Option String :=
  match url with
  | none => none
  | some u =>
    match stripUrlScan u.data with
    | some cs => some (String.mk cs)
    | none => some u

/-- The host portion of an absolute URL: what stands between the scheme
and the first slash.  Used to state what the spec calls matching "against
the host portion"; not part of the source. -/
def hostOf (url : String) : List Char :=
  match stripScheme url.data with
  | some r => r.takeWhile (fun c => c != '/')
  | none => []

/-- Modelled from the spec's words (claim C7): normalization that trims,
case-folds and strips all characters except letters and digits — without
keeping the underscore, unlike the source's `[\d\w]` class. -/
def claimNormalize (s : String) : List Char :=
  (trimWs (s.data.map Char.toLower)).filter Char.isAlphanum

/-- One search result, as `pdf_url` reads it from `art.attrs`: each field
is `attrs[name][0]` and may be `None`. -/
structure Article where
  title : Option String
  year : Option String
  url : Option String
  url_pdf : Option String
  cluster_id : Option String
deriving DecidableEq

/-- The mutable state `pdf_url` touches: the adaptive timeout
(`self.timeout`), the `Status` object, the count of user-agent
rotations forced by `on_blocked` (assignments to
`ScholarConf.USER_AGENT` there; the unrelated periodic rotation of
`BibDLQuerier` is outside the claims and not modelled), the count of
executed `blocked_cmd` hooks, the configured hook itself, and the
querier's `queries_sent` counter. -/
structure Engine where
  timeout : ℚ
  status : Status
  uaRotations : ℕ
  hookRuns : ℕ
  blocked_cmd : Option String
  queriesSent : ℕ
deriving DecidableEq

/-- Apply `self.status.result(key, text)`, keeping the updated status and
discarding the printed line. -/
def stResult (s : Engine) (key : String) (text : Option String) : Engine :=
  { s with status := (Status.result s.status key text).1 }

/-- `BibDL.on_blocked`: randomize the user agent, double the timeout
(exponential backoff), and run the configured `blocked_cmd` if present.
(`status.error` on a failing hook only prints and is not modelled.) -/
def on_blocked (s : Engine) : Engine :=
  { s with
    uaRotations := s.uaRotations + 1
    timeout := s.timeout * 2
    hookRuns := s.hookRuns + (if s.blocked_cmd.isSome then 1 else 0) }

/-- The test `pdf_url is None or is_blacklisted(pdf_url)` of the source. -/
def unusable (u : Option String) : Bool :=
  match u with
  | none => true
  | some x => is_blacklisted x

/-- The cluster walk of `pdf_url` (lines "Walk through results"): for each
cluster article in order, extract `strip_url(cart.attrs['url_pdf'][0])`;
on the first non-`None`, non-blacklisted one, record its title, year and
PDF URL in the status and stop with it; otherwise keep the incoming
`pdf_url` value. -/
def clusterWalk (s : Engine) (pdf : Option String) : List Article → Engine × Option String
  | [] => (s, pdf)
  | cart :: rest =>
    match strip_url cart.url_pdf with
    | none => clusterWalk s pdf rest
    | some curl =>
      if is_blacklisted curl then clusterWalk s pdf rest
      else
        let s1 := stResult s ("Title") cart.title
        let s2 := stResult s1 ("Year") cart.year
        let s3 := stResult s2 ("PDF") (some curl)
        (s3, some curl)

/-- `BibDL.pdf_url`, with the provider as an oracle: `primary` is the
querier's article list after the initial search query, `clusterResp` the
article list after the cluster query (consulted only when that query is
sent).  Returns the updated engine state and the returned URL.
`send_query` increments `queries_sent`; the empty-result branch prints a
warning and calls `on_blocked`; a non-empty result resets the timeout to
`TIMEOUT` before the candidate logic; the final `is_book` check only
prints a warning and does not change the returned URL. -/
def pdf_url (s0 : Engine) (primary clusterResp : List Article) : Engine × Option String :=
  let s1 : Engine := { s0 with queriesSent := s0.queriesSent + 1 }
  match primary with
  | [] => (on_blocked s1, none)
  | art :: _ =>
    let s2 : Engine := { s1 with timeout := TIMEOUT }
    let pdf0 : Option String := strip_url art.url_pdf
    let s3 := stResult (stResult (stResult s2 ("Title") art.title) ("Year") art.year) ("PDF") pdf0
    if unusable pdf0 then
      let s4 := stResult s3 ("URL") art.url
      match art.cluster_id with
      | some _ =>
        let s5 : Engine := { s4 with queriesSent := s4.queriesSent + 1 }
        clusterWalk s5 pdf0 clusterResp
      | none => (s4, pdf0)
    else (s3, pdf0)

/-- The intermediate engine state from which `pdf_url` starts the cluster
walk (primary query sent, timeout reset, primary title/year/PDF/URL
recorded, cluster query sent).  Spelled out so that theorems can speak
about the walk uniformly in the cluster response. -/
def pdfClusterState (s : Engine) (art : Article) : Engine :=
  let s1 : Engine := { s with queriesSent := s.queriesSent + 1 }
  let s2 : Engine := { s1 with timeout := TIMEOUT }
  let s3 := stResult (stResult (stResult s2 ("Title") art.title) ("Year") art.year)
    ("PDF") (strip_url art.url_pdf)
  let s4 := stResult s3 ("URL") art.url
  { s4 with queriesSent := s4.queriesSent + 1 }

/-- The local file-system preconditions `BibDL.single` checks before any
provider call: the destination directory exists, is a directory and is
writable; the destination file, when it exists, may be overwritten and is
writable. -/
structure SingleCtx where
  dirExists : Bool
  dirIsDir : Bool
  dirWritable : Bool
  fileExists : Bool
  overwrite : Bool
  fileWritable : Bool
deriving DecidableEq

/-- Whether `single` gets past its precondition checks and reaches the
query phase (otherwise one of its `raise Exception(...)` fires and the
entry is reported as an error). -/
def preOk (c : SingleCtx) : Bool :=
  (c.dirExists && c.dirIsDir && c.dirWritable) &&
  (!c.fileExists || (c.overwrite && c.fileWritable))

/-- Oracle data for one entry of a batch: the local preconditions, whether
the primary provider call raises a transport error (an exception escaping
`send_query`, caught by `single`'s `except` block), the provider responses
for `pdf_url`, and whether the download (`urlretrieve`) succeeds. -/
structure EntryRun where
  ctx : SingleCtx
  transportError : Bool
  primary : List Article
  clusterResp : List Article
  downloadOk : Bool
deriving DecidableEq

/-- Observable events of a batch run: a provider call being issued, or the
loop sleeping for a sampled duration. -/
inductive BEvent where
  | call : BEvent
  | sleep : ℚ → BEvent
deriving DecidableEq

/-- `BibDL.single` for one entry, threading the engine state: returns the
new state, the `has_queried` flag (true exactly when `pdf_url` returned
without raising) and the provider-call events issued.  Status reporting
inside `single` (`title`, `query`, error printing) does not affect
`has_queried` or the call events and is not modelled here; `downloadOk`
is deliberately unused, because `urlretrieve` runs after `has_queried`
is already set. -/
def runSingle (s : Engine) (e : EntryRun) : Engine × Bool × List BEvent :=
  if preOk e.ctx then
    if e.transportError then
      ({ s with queriesSent := s.queriesSent + 1 }, false, [BEvent.call])
    else
      let r := pdf_url s e.primary e.clusterResp
      (r.1, true, List.replicate (r.1.queriesSent - s.queriesSent) BEvent.call)
  else (s, false, [])

/-- The resampling loop of `BibDL.some`: starting from `timeout = 0.0`,
draw `normalvariate(self.timeout, 0.25)` until the draw exceeds
`MIN_TIMEOUT`; `samples` is the oracle stream of realized draws, and the
result is `none` when no draw ever qualifies (the loop would not
terminate). -/
def nextTimeout (samples : List ℚ) : Option ℚ :=
  samples.find? (fun t => decide (MIN_TIMEOUT < t))

/-- `BibDL.some`: run `single` for each key in order; after each entry
whose `single` returned true, sample a delay and sleep for it.  `samp i`
is the oracle sample stream for the sleep after the `i`-th entry. -/
def runBatch (samp : ℕ → List ℚ) : Engine → ℕ → List EntryRun → Option (Engine × List BEvent)
  | s, _, [] => some (s, [])
  | s, i, e :: rest =>
    let r := runSingle s e
    if r.2.1 then
      match nextTimeout (samp i) with
      | none => none
      | some t =>
        (runBatch samp r.1 (i + 1) rest).map
          (fun p => (p.1, r.2.2 ++ BEvent.sleep t :: p.2))
    else
      (runBatch samp r.1 (i + 1) rest).map (fun p => (p.1, r.2.2 ++ p.2))

/-- Two provider calls issued back-to-back, with no sleep between them. -/
def hasBackToBackCalls : List BEvent → Bool
  | BEvent.call :: BEvent.call :: _ => true
  | _ :: rest => hasBackToBackCalls rest
  | [] => false

/-! Concrete fixtures used by the theorems below. -/

/-- A quiet (non-verbose) status with empty message stores. -/
def quietStatus : Status :=
  { verbose := false, msg_query := [], msg_result := [] }

/-- A verbose status with empty message stores. -/
def verboseStatus : Status :=
  { verbose := true, msg_query := [], msg_result := [] }

/-- A fresh engine state at the configured baseline, with no hook. -/
def engQ : Engine :=
  { timeout := TIMEOUT, status := quietStatus, uaRotations := 0, hookRuns := 0,
    blocked_cmd := none, queriesSent := 0 }

/-- A primary result whose document URL is blacklisted and which carries
no cluster identifier. -/
def artNoCluster : Article :=
  { title := some ("A Paper"), year := some ("2000"),
    url := some ("http://raw.example.org/page"),
    url_pdf := some ("http://link.springer.com/a.pdf"), cluster_id := none }

/-- A primary result whose document URL is blacklisted and which carries
a cluster identifier. -/
def artWithCluster : Article :=
  { title := some ("A Paper"), year := some ("2000"),
    url := some ("http://raw.example.org/page"),
    url_pdf := some ("http://link.springer.com/a.pdf"), cluster_id := some ("12345") }

/-- A cluster candidate with a blacklisted document URL. -/
def cBad : Article :=
  { title := some ("A Paper"), year := some ("2000"),
    url := some ("http://www.academia.edu/b"),
    url_pdf := some ("http://www.academia.edu/b.pdf"), cluster_id := none }

/-- A cluster candidate with a clean, usable document URL. -/
def cGood : Article :=
  { title := some ("A Paper"), year := some ("2001"),
    url := some ("http://ok.example.org/b"),
    url_pdf := some ("http://ok.example.org/b.pdf"), cluster_id := none }

/-- A third cluster candidate (blacklisted), after the usable one. -/
def cThird : Article :=
  { title := some ("A Paper"), year := some ("2002"),
    url := some ("http://pdfs.semanticscholar.org/c"),
    url_pdf := some ("http://pdfs.semanticscholar.org/c.pdf"), cluster_id := none }

/-- A primary result with a clean document URL (single provider call). -/
def artClean : Article :=
  { title := some ("A Paper"), year := some ("2000"),
    url := some ("http://ok.example.org/a"),
    url_pdf := some ("http://ok.example.org/a.pdf"), cluster_id := none }

/-- Local preconditions that all pass (fresh, writable destination). -/
def ctxOk : SingleCtx :=
  { dirExists := true, dirIsDir := true, dirWritable := true,
    fileExists := false, overwrite := false, fileWritable := true }

/-- An entry resolved by a single provider call. -/
def eClean : EntryRun :=
  { ctx := ctxOk, transportError := false, primary := [artClean],
    clusterResp := [], downloadOk := true }

/-- An entry that takes the cluster fallback (second provider call),
whose cluster query returns zero results. -/
def eCluster : EntryRun :=
  { ctx := ctxOk, transportError := false, primary := [artWithCluster],
    clusterResp := [], downloadOk := true }

/-- An entry whose provider call is issued but raises a transport error. -/
def eRaise : EntryRun :=
  { ctx := ctxOk, transportError := true, primary := [], clusterResp := [],
    downloadOk := true }

/-- A sample stream whose first draw (1) already exceeds the floor. -/
def samp0 : ℕ → List ℚ := fun _ => [1]

/-- A sample stream whose first draw (an eighth) is below the floor and
whose second draw (3) exceeds it. -/
def sampR : ℕ → List ℚ := fun _ => [mkRat 1 8, 3]

/-- A verbose status that has recorded `Title` as a query field. -/
def sQF : Status :=
  { verbose := true, msg_query := [("Title", "Foo")], msg_result := [] }

/-- A verbose status that has recorded `Title` as a result field. -/
def sRF : Status :=
  { verbose := true, msg_query := [], msg_result := [("Title", "Foo")] }

/-- A URL whose own host is clean but whose query string embeds an
absolute URL with a blacklisted host. -/
def exEmbedded : String := "http://example.com/a?u=http://springer.com/x"

/-! ## Helper lemmas -/

/-- Filtering commutes over `dropWhile` when every dropped element fails
the filter. -/
theorem filter_dropWhile_of (p q : Char → Bool) (h : ∀ a, p a = true → q a = false) :
    ∀ l : List Char, (l.dropWhile p).filter q = l.filter q := by
  intro l
  induction l with
  | nil => rfl
  | cons a l ih =>
    rw [List.dropWhile_cons]
    by_cases hp : p a = true
    · rw [if_pos hp, ih, List.filter_cons, h a hp]
      simp
    · rw [if_neg hp]

/-- Whitespace is not a word character. -/
theorem pySpace_not_word : ∀ c : Char, pySpace c = true → pyWordChar c = false := by
  intro c h
  simp only [pySpace, Bool.or_eq_true, beq_iff_eq] at h
  rcases h with ((((h | h) | h) | h) | h) | h <;> subst h <;> decide

/-- Stripping surrounding whitespace does not change the word characters
kept by the collapse step. -/
theorem filter_trimWs (l : List Char) :
    (trimWs l).filter pyWordChar = l.filter pyWordChar := by
  unfold trimWs
  rw [List.filter_reverse, filter_dropWhile_of pySpace pyWordChar pySpace_not_word,
    List.filter_reverse, List.reverse_reverse,
    filter_dropWhile_of pySpace pyWordChar pySpace_not_word]

/-! ## Claims about the consistency tracker (`Status`) -/

/-- C7, counterexample: the claim says two strings that differ only in
non-alphanumeric characters always compare as similar.  `a_b` and `a b`
differ only in non-alphanumeric characters (underscore versus space):
under the claim's own normalization (trim, case-fold, strip everything
but letters and digits) both collapse to `ab`.  Yet `Status._similar`
keeps the underscore (Python `\w` includes it) and reports them as not
similar. -/
theorem c7_underscore_not_stripped :
    claimNormalize ("a_b") = claimNormalize ("a b")
    ∧ Status.similar ("a_b") ("a b") = false := by
  exact ⟨by decide, by decide⟩

/-- C7, amended: the similarity comparison lower-cases both strings and
strips all characters except letters, digits and the underscore (the
surrounding-whitespace trim is subsumed by the stripping), then compares
for equality.  `Foo Bar!` and `foo bar` compare as similar; strings that
differ only in a kept underscore, such as `a_b` and `ab`, do not. -/
theorem c7_similar_normalization :
    (∀ fst snd : String,
      Status.similar fst snd =
        (((fst.data.map Char.toLower).filter pyWordChar) ==
          ((snd.data.map Char.toLower).filter pyWordChar)))
    ∧ Status.similar ("Foo Bar!") ("foo bar") = true
    ∧ Status.similar ("a_b") ("ab") = false := by
  refine ⟨fun fst snd => ?_, by decide, by decide⟩
  simp only [Status.similar]
  rw [filter_trimWs, filter_trimWs]

/-- C6, counterexample: the claim says that outside the two mismatch
cases the value is stored as the field's current result.  Recording
result `Title = Foo` on a status whose query store already holds
`Title = Foo` (similar values, so neither mismatch case applies) emits no
warning — but stores nothing either: the result store still has no entry
for `Title`. -/
theorem c6_similar_result_not_stored :
    Status.similar ("Foo") ("Foo") = true
    ∧ (Status.result sQF ("Title") (some ("Foo"))).2 = none
    ∧ lookupField (Status.result sQF ("Title") (some ("Foo"))).1.msg_result ("Title") = none := by
  exact ⟨by decide, by decide, by decide⟩

/-- C6, amended: in verbose mode, `Status.result` for a present value
behaves by provenance of the field: if the field is recorded as a query
value, the state is unchanged and a `differs from query` warning is
emitted exactly when the values are not similar; else if the field is
recorded as a result value, the state is unchanged (the first result
value is kept) and a `differs from former result` warning is emitted
exactly when the values are not similar; only a field not previously
recorded in either store is stored as the field's current result, with no
warning. -/
theorem c6_result_case_analysis (s : Status) (key t : String) (hv : s.verbose = true) :
    (∀ q, lookupField s.msg_query key = some q →
      Status.result s key (some t) =
        (s, if Status.similar q t then none else some ("differs from query")))
    ∧ (∀ r, lookupField s.msg_query key = none →
        lookupField s.msg_result key = some r →
        Status.result s key (some t) =
          (s, if Status.similar r t then none else some ("differs from former result")))
    ∧ (lookupField s.msg_query key = none → lookupField s.msg_result key = none →
        Status.result s key (some t) =
          ({ s with msg_result := (key, t) :: s.msg_result }, none)) := by
  refine ⟨fun q hq => ?_, fun r hq hr => ?_, fun hq hr => ?_⟩
  · cases hsim : Status.similar q t <;> simp [Status.result, hv, hq, hsim]
  · cases hsim : Status.similar r t <;> simp [Status.result, hv, hq, hr, hsim]
  · simp [Status.result, hv, hq, hr]

/-- Witness for C6: the three branches at concrete states. -/
theorem c6_result_case_analysis_witness :
    Status.result sQF ("Title") (some ("Bar")) = (sQF, some ("differs from query"))
    ∧ Status.result sRF ("Title") (some ("Bar")) = (sRF, some ("differs from former result"))
    ∧ Status.result verboseStatus ("Title") (some ("Foo")) =
        ({ verboseStatus with msg_result := [("Title", "Foo")] }, none) :=
  ⟨(c6_result_case_analysis sQF ("Title") ("Bar") rfl).1 ("Foo") rfl,
   (c6_result_case_analysis sRF ("Title") ("Bar") rfl).2.1 ("Foo") rfl rfl,
   (c6_result_case_analysis verboseStatus ("Title") ("Foo") rfl).2.2 rfl rfl⟩

/-- C10: with `verbose = False`, `Status.result` changes nothing and
emits no warning, `Status.query` changes nothing, and `Status.warning`
prints nothing — so no consistency-mismatch warning can ever be produced
in quiet mode. -/
theorem c10_quiet_mode_silent (s : Status) (key : String) (text : Option String)
    (hv : s.verbose = false) :
    Status.result s key text = (s, none)
    ∧ Status.query s key text = s
    ∧ Status.warning s text = false := by
  cases text <;> simp [Status.result, Status.query, Status.warning, hv]

/-- Witness for C10 at a concrete quiet status. -/
theorem c10_quiet_mode_silent_witness :
    quietStatus.verbose = false
    ∧ (Status.result quietStatus ("Title") (some ("Foo")) = (quietStatus, none)
       ∧ Status.query quietStatus ("Title") (some ("Foo")) = quietStatus
       ∧ Status.warning quietStatus (some ("Foo")) = false) :=
  ⟨rfl, c10_quiet_mode_silent quietStatus ("Title") (some ("Foo")) rfl⟩

/-! ## Claims about URL blacklisting -/

/-- `reSearch` succeeds exactly when the pattern matches at the head of
some suffix of the scanned list. -/
theorem reSearch_iff (w : List Char) (l : List Char) :
    reSearch w l = true ↔ ∃ t, t <:+ l ∧ blacklistMatchAt w t = true := by
  induction l with
  | nil =>
    simp only [reSearch]
    constructor
    · intro h; exact ⟨[], List.suffix_rfl, h⟩
    · rintro ⟨t, ht, hm⟩
      rw [List.suffix_nil] at ht
      subst ht; exact hm
  | cons c rest ih =>
    simp only [reSearch, Bool.or_eq_true, ih]
    constructor
    · rintro (h | ⟨t, ht, hm⟩)
      · exact ⟨c :: rest, List.suffix_rfl, h⟩
      · exact ⟨t, ht.trans (List.suffix_cons c rest), hm⟩
    · rintro ⟨t, ht, hm⟩
      rw [List.suffix_cons_iff] at ht
      rcases ht with rfl | ht
      · exact Or.inl hm
      · exact Or.inr ⟨t, ht, hm⟩

/-- `blacklistMatchAt` succeeds exactly when a scheme can be stripped and
the host scan succeeds on the remainder. -/
theorem blacklistMatchAt_iff (w t : List Char) :
    blacklistMatchAt w t = true ↔
      ∃ r, stripScheme t = some r ∧ hostPartMatch w r = true := by
  cases h : stripScheme t <;> simp [blacklistMatchAt, h]

/-- A prefix made of non-slash characters survives `takeWhile`. -/
theorem prefix_takeWhile_of_noSlash (w : List Char) (hw : ∀ c ∈ w, (c == '/') = false) :
    ∀ l : List Char, w <+: l → w <+: l.takeWhile (fun c => c != '/') := by
  induction w with
  | nil => intro l _; exact List.nil_prefix
  | cons a w ih =>
    intro l h
    cases l with
    | nil => simp at h
    | cons b l =>
      rw [List.cons_prefix_cons] at h
      obtain ⟨rfl, h2⟩ := h
      have ha : (a == '/') = false := hw a (List.mem_cons_self a w)
      have hab : (a != '/') = true := by simp [bne, ha]
      rw [List.takeWhile_cons, if_pos hab]
      exact List.cons_prefix_cons.mpr
        ⟨rfl, ih (fun c hc => hw c (List.mem_cons_of_mem a hc)) l h2⟩

/-- The host scan `[^/]*w` succeeds exactly when `w` occurs inside the
segment before the first slash, for a word containing no slash. -/
theorem hostPartMatch_iff (w : List Char) (hw : ∀ c ∈ w, (c == '/') = false) :
    ∀ r : List Char,
      hostPartMatch w r = true ↔ w <:+: (r.takeWhile (fun c => c != '/')) := by
  intro r
  induction r with
  | nil =>
    simp only [hostPartMatch, List.takeWhile_nil]
    rw [List.isPrefixOf_iff_prefix, List.prefix_nil, List.infix_nil]
  | cons c rest ih =>
    simp only [hostPartMatch]
    by_cases hpre : w.isPrefixOf (c :: rest) = true
    · rw [if_pos hpre]
      simp only [true_iff]
      have hp : w <+: c :: rest := List.isPrefixOf_iff_prefix.mp hpre
      exact (prefix_takeWhile_of_noSlash w hw (c :: rest) hp).isInfix
    · rw [if_neg hpre]
      by_cases hc : (c == '/') = true
      · have hcb : (c != '/') = false := by simp [bne, hc]
        rw [if_pos hc, List.takeWhile_cons, if_neg (by rw [hcb]; exact Bool.false_ne_true)]
        rw [List.infix_nil]
        constructor
        · intro h; exact absurd h (by simp)
        · intro h
          subst h
          exact absurd rfl hpre
      · have hcb : (c != '/') = true := by simp [bne, hc]
        rw [if_neg hc, ih, List.takeWhile_cons, if_pos hcb, List.infix_cons_iff]
        constructor
        · exact fun h => Or.inr h
        · rintro (hp | h)
          · exfalso
            have hwp : w <+: c :: rest :=
              hp.trans (List.cons_prefix_cons.mpr ⟨rfl, List.takeWhile_prefix _⟩)
            exact hpre (List.isPrefixOf_iff_prefix.mpr hwp)
          · exact h

/-- C8, counterexample: the claim says a blocked-host name appearing only
in the path or query string of a non-blocked host does not cause a
blacklisted classification.  The URL
`http://example.com/a?u=http://springer.com/x` has host `example.com`,
which contains none of the blocked words — yet `is_blacklisted` returns
true, because `re.search` also matches the absolute URL embedded in the
query string. -/
theorem c8_embedded_url_blacklisted :
    is_blacklisted exEmbedded = true
    ∧ hostOf exEmbedded = ("example.com").data
    ∧ ¬ (("springer").data <:+: hostOf exEmbedded)
    ∧ ¬ (("academia").data <:+: hostOf exEmbedded)
    ∧ ¬ (("semanticscholar").data <:+: hostOf exEmbedded) := by
  exact ⟨by decide, by decide, by decide, by decide, by decide⟩

/-- C8, amended: `is_blacklisted url` is true exactly when somewhere in
the URL an occurrence of `http://` or `https://` is followed, before the
next slash, by one of the blocked words.  In particular a blocked word in
the path or query string without a scheme prefix does not trigger the
blacklist, any URL whose own host contains a blocked word is blacklisted
regardless of path or query string, but an absolute URL embedded later in
the string (e.g. in a query parameter) can also trigger it. -/
theorem c8_blacklisted_iff (url : String) :
    is_blacklisted url = true ↔
      ∃ w ∈ URL_BLACKLIST, ∃ t r, t <:+ url.data ∧ stripScheme t = some r ∧
        w.data <:+: (r.takeWhile (fun c => c != '/')) := by
  have hns : ∀ w ∈ URL_BLACKLIST, ∀ c ∈ w.data, (c == '/') = false := by
    intro w hw
    simp only [URL_BLACKLIST, List.mem_cons, List.not_mem_nil, or_false] at hw
    rcases hw with rfl | rfl | rfl <;> decide
  unfold is_blacklisted
  rw [List.any_eq_true]
  constructor
  · rintro ⟨w, hw, hsearch⟩
    rw [reSearch_iff] at hsearch
    obtain ⟨t, ht, hm⟩ := hsearch
    rw [blacklistMatchAt_iff] at hm
    obtain ⟨r, hs, hh⟩ := hm
    exact ⟨w, hw, t, r, ht, hs, (hostPartMatch_iff w.data (hns w hw) r).mp hh⟩
  · rintro ⟨w, hw, t, r, ht, hs, hinf⟩
    refine ⟨w, hw, ?_⟩
    rw [reSearch_iff]
    exact ⟨t, ht, (blacklistMatchAt_iff w.data t).mpr
      ⟨r, hs, (hostPartMatch_iff w.data (hns w hw) r).mpr hinf⟩⟩

/-! ## Claims about the resolution engine (`pdf_url`) -/

/-- The cluster walk never changes the timeout. -/
theorem clusterWalk_timeout (l : List Article) :
    ∀ (s : Engine) (p : Option String), (clusterWalk s p l).1.timeout = s.timeout := by
  induction l with
  | nil => intro s p; rfl
  | cons cart rest ih =>
    intro s p
    simp only [clusterWalk]
    split
    · exact ih s p
    · split
      · exact ih s p
      · rfl

/-- The cluster walk skips a candidate whose extracted document URL is
null or blacklisted. -/
theorem clusterWalk_skip (s : Engine) (p : Option String) (cart : Article)
    (rest : List Article) (h : unusable (strip_url cart.url_pdf) = true) :
    clusterWalk s p (cart :: rest) = clusterWalk s p rest := by
  simp only [clusterWalk]
  split
  · rfl
  · next curl heq =>
    rw [heq] at h
    simp only [unusable] at h
    rw [if_pos h]

/-- The cluster walk adopts a candidate whose extracted document URL is
present and not blacklisted, recording its title, year and PDF URL, and
stops. -/
theorem clusterWalk_adopt (s : Engine) (p : Option String) (cart : Article)
    (rest : List Article) (u : String) (hc : strip_url cart.url_pdf = some u)
    (hb : is_blacklisted u = false) :
    clusterWalk s p (cart :: rest) =
      (stResult (stResult (stResult s ("Title") cart.title) ("Year") cart.year)
        ("PDF") (some u), some u) := by
  simp only [clusterWalk]
  split
  · next heq =>
    rw [hc] at heq
    exact Option.noConfusion heq
  · next curl heq =>
    rw [hc] at heq
    injection heq with hu
    subst hu
    rw [if_neg (by simp [hb])]

/-- When the primary candidate's document URL is null or blacklisted and
the primary result carries a cluster identifier, `pdf_url` reduces to the
cluster walk from the fixed intermediate state `pdfClusterState`,
uniformly in the cluster response. -/
theorem pdf_url_cluster_eq (s : Engine) (art : Article) (restP cl : List Article)
    (cid : String) (h0 : unusable (strip_url art.url_pdf) = true)
    (hcid : art.cluster_id = some cid) :
    pdf_url s (art :: restP) cl = clusterWalk (pdfClusterState s art) (strip_url art.url_pdf) cl := by
  simp only [pdf_url, pdfClusterState, hcid]
  rw [if_pos h0]

/-- A non-empty primary response always resets the timeout to the
baseline, whatever happens afterwards. -/
theorem pdf_url_nonempty_timeout (s : Engine) (art : Article) (restP cl : List Article) :
    (pdf_url s (art :: restP) cl).1.timeout = TIMEOUT := by
  simp only [pdf_url]
  by_cases h0 : unusable (strip_url art.url_pdf) = true
  · rw [if_pos h0]
    cases art.cluster_id with
    | none => rfl
    | some cid =>
      rw [clusterWalk_timeout]
      rfl
  · rw [if_neg h0]
    rfl

/-- C1 (code bug): the engine can return a blacklisted URL as a non-null
success.  With a primary result whose document URL is blacklisted, the
blacklisted URL is returned unchanged both when the result carries no
cluster identifier and when the cluster walk finds no usable candidate. -/
theorem c1_blacklisted_url_returned :
    (pdf_url engQ [artNoCluster] []).2 = some ("http://link.springer.com/a.pdf")
    ∧ (pdf_url engQ [artWithCluster] [cBad]).2 = some ("http://link.springer.com/a.pdf")
    ∧ is_blacklisted ("http://link.springer.com/a.pdf") = true := by
  exact ⟨by decide, by decide, by decide⟩

/-- C2: when the primary document URL is null or blacklisted and a
cluster identifier is present, the engine walks the cluster's results in
order and adopts the first usable one, stopping there: with an unusable
first candidate and a usable second candidate, the result is the second
candidate's URL, and the whole outcome is independent of everything after
the second candidate (it equals the run on the two-candidate cluster, so
the third candidate is never evaluated). -/
theorem c2_cluster_first_usable_wins (s : Engine) (art : Article) (restP : List Article)
    (cid : String) (c1 c2 : Article) (rest : List Article) (u2 : String)
    (h0 : unusable (strip_url art.url_pdf) = true)
    (hcid : art.cluster_id = some cid)
    (h1 : unusable (strip_url c1.url_pdf) = true)
    (h2 : strip_url c2.url_pdf = some u2)
    (hb2 : is_blacklisted u2 = false) :
    pdf_url s (art :: restP) (c1 :: c2 :: rest) = pdf_url s (art :: restP) [c1, c2]
    ∧ (pdf_url s (art :: restP) (c1 :: c2 :: rest)).2 = some u2 := by
  constructor
  · rw [pdf_url_cluster_eq s art restP (c1 :: c2 :: rest) cid h0 hcid,
      pdf_url_cluster_eq s art restP [c1, c2] cid h0 hcid,
      clusterWalk_skip _ _ c1 _ h1, clusterWalk_skip _ _ c1 _ h1,
      clusterWalk_adopt _ _ c2 rest u2 h2 hb2, clusterWalk_adopt _ _ c2 [] u2 h2 hb2]
  · rw [pdf_url_cluster_eq s art restP (c1 :: c2 :: rest) cid h0 hcid,
      clusterWalk_skip _ _ c1 _ h1, clusterWalk_adopt _ _ c2 rest u2 h2 hb2]

/-- Witness for C2: three concrete cluster candidates of which only the
second is usable; the engine returns the second one's URL and the run
equals the run without the third candidate. -/
theorem c2_cluster_first_usable_wins_witness :
    pdf_url engQ [artWithCluster] [cBad, cGood, cThird] =
      pdf_url engQ [artWithCluster] [cBad, cGood]
    ∧ (pdf_url engQ [artWithCluster] [cBad, cGood, cThird]).2 =
      some ("http://ok.example.org/b.pdf") :=
  c2_cluster_first_usable_wins engQ artWithCluster [] ("12345") cBad cGood [cThird]
    ("http://ok.example.org/b.pdf") (by decide) rfl (by decide) (by decide) (by decide)

/-- C5, counterexample: the claim says every provider call returning zero
results doubles the mean delay and forces an identity rotation.  A run
whose primary call returns one (unusable, clustered) result and whose
cluster call returns zero results issues two provider calls, yet ends
with the mean still at the baseline (5, not 10) and no forced rotation
and no hook invocation. -/
theorem c5_cluster_call_no_backoff :
    (pdf_url engQ [artWithCluster] []).1.queriesSent = 2
    ∧ (pdf_url engQ [artWithCluster] []).1.timeout = 5
    ∧ ¬ ((pdf_url engQ [artWithCluster] []).1.timeout = 10)
    ∧ (pdf_url engQ [artWithCluster] []).1.uaRotations = 0
    ∧ (pdf_url engQ [artWithCluster] []).1.hookRuns = 0 := by
  exact ⟨by decide, by decide, by decide, by decide, by decide⟩

/-- C5, amended: only the primary search call drives the throttle.  An
empty primary response doubles the mean delay (unbounded above), forces a
user-agent rotation, runs the configured hook if present, and yields no
URL; a non-empty primary response resets the mean to the baseline, and
nothing later in the call — in particular the cluster query, whatever its
result count — changes it again. -/
theorem c5_primary_call_drives_throttle :
    (∀ (s : Engine) (cl : List Article),
      (pdf_url s [] cl).1.timeout = s.timeout * 2
      ∧ (pdf_url s [] cl).1.uaRotations = s.uaRotations + 1
      ∧ (pdf_url s [] cl).1.hookRuns
          = s.hookRuns + (if s.blocked_cmd.isSome then 1 else 0)
      ∧ (pdf_url s [] cl).2 = none)
    ∧ (∀ (s : Engine) (art : Article) (restP cl : List Article),
      (pdf_url s (art :: restP) cl).1.timeout = TIMEOUT) := by
  constructor
  · intro s cl
    exact ⟨rfl, rfl, rfl, rfl⟩
  · intro s art restP cl
    exact pdf_url_nonempty_timeout s art restP cl

/-! ## Claims about the batch loop (`runSingle` / `runBatch`) -/

/-- One unfolding step of `runBatch` on a non-empty batch. -/
theorem runBatch_cons (samp : ℕ → List ℚ) (s : Engine) (i : ℕ) (e : EntryRun)
    (rest : List EntryRun) :
    runBatch samp s i (e :: rest) =
      (if (runSingle s e).2.1 then
        match nextTimeout (samp i) with
        | none => none
        | some t =>
          (runBatch samp (runSingle s e).1 (i + 1) rest).map
            (fun p => (p.1, (runSingle s e).2.2 ++ BEvent.sleep t :: p.2))
      else
        (runBatch samp (runSingle s e).1 (i + 1) rest).map
          (fun p => (p.1, (runSingle s e).2.2 ++ p.2))) := rfl

/-- A single entry never produces a sleep event by itself. -/
theorem runSingle_no_sleep (s : Engine) (e : EntryRun) (t : ℚ) :
    BEvent.sleep t ∉ (runSingle s e).2.2 := by
  simp only [runSingle]
  split
  · split
    · simp
    · simp [List.mem_replicate]
  · simp

/-- C3, counterexample: the claim says no delay is incurred after the
final entry.  A batch of one entry whose provider call completed produces
the trace `[call, sleep 1]`: the loop sleeps after the final (only)
entry. -/
theorem c3_sleep_after_final_entry :
    (runBatch samp0 engQ 0 [eClean]).map (fun p => p.2) =
      some [BEvent.call, BEvent.sleep 1]
    ∧ MIN_TIMEOUT < 1 := by
  exact ⟨by decide, by decide⟩

/-- C3, amended: the batch loop sleeps after every entry whose provider
call completed, including the final one.  Runs compose over batch
concatenation, and a one-entry batch whose call completed appends exactly
that entry's call events followed by one sleep. -/
theorem c3_delay_after_each_completed_entry (samp : ℕ → List ℚ) (e : EntryRun) :
    (∀ (s : Engine) (i : ℕ) (es : List EntryRun),
      runBatch samp s i (es ++ [e]) =
        (runBatch samp s i es).bind (fun p =>
          (runBatch samp p.1 (i + es.length) [e]).map (fun q => (q.1, p.2 ++ q.2))))
    ∧ (∀ (s1 : Engine) (j : ℕ), (runSingle s1 e).2.1 = true →
        runBatch samp s1 j [e] =
          (nextTimeout (samp j)).map
            (fun t => ((runSingle s1 e).1, (runSingle s1 e).2.2 ++ [BEvent.sleep t]))) := by
  constructor
  · intro s i es
    induction es generalizing s i with
    | nil =>
      show runBatch samp s i [e] =
        (runBatch samp s i [e]).map (fun q => (q.1, [] ++ q.2))
      cases hr : runBatch samp s i [e] with
      | none => rfl
      | some p => simp
    | cons a es ih =>
      rw [List.cons_append, runBatch_cons samp s i a (es ++ [e]), runBatch_cons samp s i a es]
      by_cases hq : (runSingle s a).2.1 = true
      · rw [if_pos hq, if_pos hq]
        cases hnt : nextTimeout (samp i) with
        | none => rfl
        | some t =>
          rw [ih (runSingle s a).1 (i + 1)]
          cases hmb : runBatch samp (runSingle s a).1 (i + 1) es with
          | none => rfl
          | some p =>
            simp only [Option.map_map, Option.map_some', Option.some_bind]
            congr 1
            · funext q
              simp [Function.comp, List.append_assoc]
            · congr 1
              simp only [List.length_cons]
              omega
      · rw [if_neg hq, if_neg hq]
        rw [ih (runSingle s a).1 (i + 1)]
        cases hmb : runBatch samp (runSingle s a).1 (i + 1) es with
        | none => rfl
        | some p =>
          simp only [Option.map_map, Option.map_some', Option.some_bind]
          congr 1
          · funext q
            simp [Function.comp, List.append_assoc]
          · congr 1
            simp only [List.length_cons]
            omega
  · intro s1 j h
    rw [runBatch_cons, if_pos h]
    cases hnt : nextTimeout (samp j) with
    | none => rfl
    | some t => rfl

/-- Witness for C3 (amended): a concrete one-entry batch with a completed
call ends with a sleep after that final entry. -/
theorem c3_delay_after_each_completed_entry_witness :
    (runSingle engQ eClean).2.1 = true
    ∧ runBatch samp0 engQ 0 [eClean] =
        (nextTimeout (samp0 0)).map
          (fun t => ((runSingle engQ eClean).1,
            (runSingle engQ eClean).2.2 ++ [BEvent.sleep t])) :=
  ⟨by decide, (c3_delay_after_each_completed_entry samp0 eClean).2 engQ 0 (by decide)⟩

/-- C4, counterexample: the claim says a delay is incurred whenever a
provider call was issued for the entry, even if the call failed.  An
entry whose preconditions pass but whose provider call raises a transport
error issues a call (the trace contains a call event) yet `single`
returns false and the batch takes no delay after it. -/
theorem c4_raised_call_skips_delay :
    preOk eRaise.ctx = true
    ∧ (runSingle engQ eRaise).2.2 = [BEvent.call]
    ∧ (runSingle engQ eRaise).2.1 = false
    ∧ (runBatch samp0 engQ 0 [eRaise]).map (fun p => p.2) = some [BEvent.call] := by
  exact ⟨by decide, by decide, by decide, by decide⟩

/-- C4, amended: the delay after an entry is taken exactly when the
entry's provider call completed: the local preconditions passed and the
call did not raise.  A completed call incurs the delay even when no PDF
was found or the download failed (the download outcome does not affect
the run at all). -/
theorem c4_delay_iff_call_completed :
    ∀ (s : Engine) (e : EntryRun),
      (runSingle s e).2.1 = (preOk e.ctx && !e.transportError)
      ∧ (∀ b : Bool, runSingle s { e with downloadOk := b } = runSingle s e) := by
  intro s e
  constructor
  · cases hp : preOk e.ctx <;> cases ht : e.transportError <;>
      simp [runSingle, hp, ht]
  · intro b
    rfl

/-- C9, counterexample: the claim says the batch never issues two
provider calls back-to-back without an intervening delay of at least the
configured minimum.  One entry that falls back to the cluster query
issues two provider calls in direct succession, with no sleep between
them. -/
theorem c9_back_to_back_calls :
    (runBatch samp0 engQ 0 [eCluster]).map (fun p => p.2) =
      some [BEvent.call, BEvent.call, BEvent.sleep 1]
    ∧ (runBatch samp0 engQ 0 [eCluster]).map (fun p => hasBackToBackCalls p.2) =
      some true := by
  exact ⟨by decide, by decide⟩

/-- C9, amended: every delay the batch loop actually sleeps for strictly
exceeds the configured floor `MIN_TIMEOUT`, because the sample is redrawn
until it does; but provider calls inside one entry (primary then cluster)
are issued back-to-back without any delay. -/
theorem c9_sleep_exceeds_floor (samp : ℕ → List ℚ) (entries : List EntryRun) :
    ∀ (s : Engine) (i : ℕ) (sf : Engine) (tr : List BEvent),
      runBatch samp s i entries = some (sf, tr) →
      ∀ t : ℚ, BEvent.sleep t ∈ tr → MIN_TIMEOUT < t := by
  induction entries with
  | nil =>
    intro s i sf tr h t ht
    simp only [runBatch, Option.some.injEq, Prod.mk.injEq] at h
    obtain ⟨-, h2⟩ := h
    rw [← h2] at ht
    exact absurd ht (List.not_mem_nil _)
  | cons e rest ih =>
    intro s i sf tr h t ht
    rw [runBatch_cons] at h
    by_cases hq : (runSingle s e).2.1 = true
    · rw [if_pos hq] at h
      cases hnt : nextTimeout (samp i) with
      | none =>
        rw [hnt] at h
        exact Option.noConfusion h
      | some t0 =>
        rw [hnt] at h
        cases hmb : runBatch samp (runSingle s e).1 (i + 1) rest with
        | none =>
          rw [hmb] at h
          exact Option.noConfusion h
        | some p =>
          obtain ⟨s2, tr2⟩ := p
          rw [hmb] at h
          simp only [Option.map_some', Option.some.injEq, Prod.mk.injEq] at h
          obtain ⟨-, h2⟩ := h
          rw [← h2, List.mem_append] at ht
          rcases ht with hev | hcons
          · exact absurd hev (runSingle_no_sleep s e t)
          · rcases List.mem_cons.mp hcons with heq | htail
            · injection heq with ht0
              subst ht0
              have hfind := List.find?_some hnt
              simpa using hfind
            · exact ih (runSingle s e).1 (i + 1) s2 tr2 hmb t htail
    · rw [if_neg hq] at h
      cases hmb : runBatch samp (runSingle s e).1 (i + 1) rest with
      | none =>
        rw [hmb] at h
        exact Option.noConfusion h
      | some p =>
        obtain ⟨s2, tr2⟩ := p
        rw [hmb] at h
        simp only [Option.map_some', Option.some.injEq, Prod.mk.injEq] at h
        obtain ⟨-, h2⟩ := h
        rw [← h2, List.mem_append] at ht
        rcases ht with hev | htail
        · exact absurd hev (runSingle_no_sleep s e t)
        · exact ih (runSingle s e).1 (i + 1) s2 tr2 hmb t htail

/-- Witness for C9 (amended): a concrete run whose first draw (an eighth)
is below the floor redraws and sleeps for the second draw (3), which
exceeds the floor. -/
theorem c9_sleep_exceeds_floor_witness :
    runBatch sampR engQ 0 [eClean] =
      some ((runSingle engQ eClean).1, (runSingle engQ eClean).2.2 ++ [BEvent.sleep 3])
    ∧ MIN_TIMEOUT < 3 :=
  ⟨rfl, c9_sleep_exceeds_floor sampR [eClean] engQ 0 (runSingle engQ eClean).1
      ((runSingle engQ eClean).2.2 ++ [BEvent.sleep 3]) rfl 3 (by simp)⟩

end Bibdl
